import Mathlib

/-!
# Ray tracing header `raytrace.h`

The header declares two plain records, `Update_info` and `R3Intersect`, and the
signature of `RenderImage`.  This file embeds the two records field by field, in
the order of the header, and proves the record laws: what the constructor stores,
that a record is determined by its fields, and that the fields are not tied to
one another by any invariant.

The header uses four types it does not declare: the built-in `double` and the
library types `R3Point`, `R3Vector` and `R3Node`.  They are modelled below, each
with a note saying where the model comes from.
-/

/-! ## Types the header relies on -/

/-- The C++ built-in `double`, taken as an IEEE-754 binary64 datum and held as its
three bit fields: the sign bit, the 11-bit biased exponent and the 52-bit
fraction.  Every bit pattern is a value of the type, NaN and the infinities
included. -/
structure double where
  sign : Bool
  exponent : Fin (2 ^ 11)
  mantissa : Fin (2 ^ 52)
deriving DecidableEq

namespace double

/-- The number a finite `double` stands for; `none` for NaN and the infinities
(biased exponent 2047).  Biased exponent 0 is the subnormal range. -/
def toRat (d : double) : Option ℚ :=
  if d.exponent.val = 2047 then none
  else
    let m : ℚ :=
      if d.exponent.val = 0 then (d.mantissa.val : ℚ) * 2 ^ (-1074 : ℤ)
      else ((2 ^ 52 + d.mantissa.val : ℕ) : ℚ) * 2 ^ ((d.exponent.val : ℤ) - 1075)
    some (if d.sign then -m else m)

/-- The `double` literal `0.0`. -/
def zero : double := ⟨false, 0, 0⟩

/-- The `double` literal `-1.0`: sign bit set, biased exponent 1023, fraction 0. -/
def negOne : double := ⟨true, 1023, 0⟩

end double

/-- Modelled from the spec: `R3Point` is declared outside the header; the spec
calls it a 3D point, which is three scalar coordinates. -/
structure R3Point where
  x : double
  y : double
  z : double
deriving DecidableEq

/-- Modelled from the spec: `R3Vector` is declared outside the header; the spec
calls it a 3D vector, which is three scalar components. -/
structure R3Vector where
  x : double
  y : double
  z : double
deriving DecidableEq

/-- The vector whose three components are `0.0`. -/
def R3Vector.zero : R3Vector := ⟨double.zero, double.zero, double.zero⟩

/-- Modelled from the spec: `R3Node` is declared outside the header, and the header
only ever holds an `R3Node*`.  The pointer is a reference into a scene graph kept
elsewhere: either null or the identity of one scene node.  The record holding it
stores the reference, never the node. -/
inductive R3NodePtr where
  | null : R3NodePtr
  | node (id : Nat) : R3NodePtr
deriving DecidableEq

/-! ## The records of the header -/

/-- The record `struct Update_info { R3Point position; R3Vector normal; double t; }`. -/
structure Update_info where
  position : R3Point
  normal : R3Vector
  t : double
deriving DecidableEq

/-- The record `struct R3Intersect { Update_info info; R3Node* node; bool hit; }`. -/
structure R3Intersect where
  info : Update_info
  node : R3NodePtr
  hit : Bool
deriving DecidableEq

/-! ## Facts about the scalar model -/

/-- The literal `-1.0` stands for the number -1. -/
theorem double.toRat_negOne : double.negOne.toRat = some (-1) := by
  have he : ((1023 : Fin (2 ^ 11)).val) = 1023 := rfl
  have hm : ((0 : Fin (2 ^ 52)).val) = 0 := rfl
  simp only [double.toRat, double.negOne, he, hm]
  norm_num

/-- The literal `0.0` stands for the number 0. -/
theorem double.toRat_zero : double.zero.toRat = some 0 := by
  simp [double.toRat, double.zero]

/-! ## Record laws -/

/-- C1: an `Update_info` is exactly the three components `position`, `normal`
and `t`, in that order.  The record built from a point `p`, a vector `n` and a
scalar `x` has `position = p`, `normal = n` and `t = x`; every record is the one
built from its own three fields; and two records are equal exactly when their
`position`, `normal` and `t` agree, so there is no further field. -/
theorem Update_info_components :
    (∀ (p : R3Point) (n : R3Vector) (x : double),
        (Update_info.mk p n x).position = p ∧
        (Update_info.mk p n x).normal = n ∧
        (Update_info.mk p n x).t = x) ∧
    (∀ u : Update_info, Update_info.mk u.position u.normal u.t = u) ∧
    (∀ a b : Update_info,
        a = b ↔ a.position = b.position ∧ a.normal = b.normal ∧ a.t = b.t) := by
  refine ⟨fun p n x => ⟨rfl, rfl, rfl⟩, fun u => ?_, fun a b => ?_⟩
  · cases u
    rfl
  · constructor
    · intro h
      subst h
      exact ⟨rfl, rfl, rfl⟩
    · intro h
      cases a
      cases b
      obtain ⟨hp, hn, ht⟩ := h
      simp only at hp hn ht
      subst hp
      subst hn
      subst ht
      rfl

/-- C2: an `R3Intersect` is exactly the three components `info`, `node` and
`hit`, in that order.  The record built from an `Update_info` `i`, a node
reference `r` (null allowed) and a boolean `b` has `info = i`, `node = r` and
`hit = b`; its `info` shows the position, normal and `t` of `i` unchanged; every
record is the one built from its own three fields; and two records with the same
`info`, `node` and `hit` are the same record. -/
theorem R3Intersect_components :
    (∀ (i : Update_info) (r : R3NodePtr) (b : Bool),
        (R3Intersect.mk i r b).info = i ∧
        (R3Intersect.mk i r b).node = r ∧
        (R3Intersect.mk i r b).hit = b ∧
        (R3Intersect.mk i r b).info.position = i.position ∧
        (R3Intersect.mk i r b).info.normal = i.normal ∧
        (R3Intersect.mk i r b).info.t = i.t) ∧
    (∀ (p : R3Point) (n : R3Vector) (x : double) (r : R3NodePtr) (b : Bool),
        (R3Intersect.mk (Update_info.mk p n x) r b).info.position = p ∧
        (R3Intersect.mk (Update_info.mk p n x) r b).info.normal = n ∧
        (R3Intersect.mk (Update_info.mk p n x) r b).info.t = x) ∧
    (∀ s : R3Intersect, R3Intersect.mk s.info s.node s.hit = s) ∧
    (∀ a b : R3Intersect,
        a = b ↔ a.info = b.info ∧ a.node = b.node ∧ a.hit = b.hit) := by
  refine ⟨fun i r b => ⟨rfl, rfl, rfl, rfl, rfl, rfl⟩,
    fun p n x r b => ⟨rfl, rfl, rfl⟩, fun s => ?_, fun a b => ?_⟩
  · cases s
    rfl
  · constructor
    · intro h
      subst h
      exact ⟨rfl, rfl, rfl⟩
    · intro h
      cases a
      cases b
      obtain ⟨hi, hn, hh⟩ := h
      simp only at hi hn hh
      subst hi
      subst hn
      subst hh
      rfl

/-- C4: the records tie their fields by no invariant.  For every `info`, node
reference (null included) and hit flag there is an `R3Intersect` with exactly
those fields; one exists with `hit = true` and a null node, and one with
`hit = false` and a non-null node.  For every point, vector and scalar there is
an `Update_info` holding them; one exists whose `t` is a negative number and
whose normal is the zero vector. -/
theorem records_unconstrained :
    (∀ (i : Update_info) (r : R3NodePtr) (b : Bool),
        ∃ s : R3Intersect, s.info = i ∧ s.node = r ∧ s.hit = b) ∧
    (∃ s : R3Intersect, s.hit = true ∧ s.node = R3NodePtr.null) ∧
    (∃ s : R3Intersect, s.hit = false ∧ s.node ≠ R3NodePtr.null) ∧
    (∀ (p : R3Point) (n : R3Vector) (x : double),
        ∃ u : Update_info, u.position = p ∧ u.normal = n ∧ u.t = x) ∧
    (∃ u : Update_info,
        (∃ q : ℚ, u.t.toRat = some q ∧ q < 0) ∧ u.normal = R3Vector.zero) := by
  refine ⟨fun i r b => ⟨⟨i, r, b⟩, rfl, rfl, rfl⟩, ?_, ?_,
    fun p n x => ⟨⟨p, n, x⟩, rfl, rfl, rfl⟩, ?_⟩
  · exact ⟨⟨⟨⟨double.zero, double.zero, double.zero⟩, R3Vector.zero, double.zero⟩,
      R3NodePtr.null, true⟩, rfl, rfl⟩
  · refine ⟨⟨⟨⟨double.zero, double.zero, double.zero⟩, R3Vector.zero, double.zero⟩,
      R3NodePtr.node 0, false⟩, rfl, ?_⟩
    intro h
    cases h
  · refine ⟨⟨⟨double.zero, double.zero, double.zero⟩, R3Vector.zero, double.negOne⟩,
      ⟨-1, double.toRat_negOne, by norm_num⟩, rfl⟩
